import Mathlib

/-!
Shallow embedding of the stories state duck (`ts/state/ducks/stories.ts`)
and the message-edit eligibility rule (`ts/util/canEditMessage.ts`) of the
Signal-Desktop excerpt, together with proofs of the specified properties
of the reducer and of the asynchronous effects.

Machine integers do not occur: timestamps and durations are modelled as `Nat`.
JavaScript `undefined`-able fields are modelled as `Option`; truthiness tests
on them are embedded explicitly.
-/

namespace Stories

/-- Modelled from the spec: the attachment download-state enum
(not-downloaded / downloading / downloaded) used by the helpers
`isDownloaded` / `isDownloading` of `ts/types/Attachment`, which is not
among the provided sources. -/
inductive DownloadState where
  | notDownloaded
  | downloading
  | downloaded
deriving DecidableEq, Repr

/-- An attachment as far as this state layer observes it: a download state
plus the `url` and `path` fields that the reducer and effects read or write.
All other attachment fields are untouched by this layer. -/
structure Attachment where
  downloadState : DownloadState
  url : Option String
  path : Option String
deriving DecidableEq, Repr

/-- Modelled from the spec: `isDownloaded` of `ts/types/Attachment` (not in
the provided sources); true exactly when an attachment is present and fully
downloaded. -/
def isDownloaded (a : Option Attachment) : Bool :=
  match a with
  | none => false
  | some att => decide (att.downloadState = DownloadState.downloaded)

/-- Modelled from the spec: `isDownloading` of `ts/types/Attachment` (not in
the provided sources); true exactly when an attachment is present and its
download is in flight. -/
def isDownloading (a : Option Attachment) : Bool :=
  match a with
  | none => false
  | some att => decide (att.downloadState = DownloadState.downloading)

/-- Modelled from the spec: the `ReadStatus` enum of
`ts/messages/MessageReadStatus` (not in the provided sources). -/
inductive ReadStatus where
  | Unread
  | Read
  | Viewed
deriving DecidableEq, Repr

/-- A single reaction entry; the reducer only ever reads the length of the
reaction list, so the fields are representative. -/
structure Reaction where
  emoji : String
  fromId : String
deriving DecidableEq, Repr

/-- Per-recipient send state (value of `sendStateByConversationId`);
compared only by deep equality in this layer. -/
structure SendState where
  status : Nat
  updatedAt : Option Nat
deriving DecidableEq, Repr

/-- `StoryDataType` of `ts/state/ducks/stories.ts`: the view-model stored in
the stories list. `sendStateByConversationId` is a JS object keyed by
conversation id, modelled as an association list. `deletedForEveryone` is
only ever tested for truthiness, so `undefined` is collapsed to `false`. -/
structure StoryData where
  attachment : Option Attachment
  canReplyToStory : Option Bool
  conversationId : String
  deletedForEveryone : Bool
  messageId : String
  reactions : Option (List Reaction)
  readStatus : Option ReadStatus
  sendStateByConversationId : Option (List (String × SendState))
  source : Option String
  sourceUuid : Option String
  storyDistributionListId : Option String
  timestamp : Nat
  type : String
deriving DecidableEq, Repr

/-- One edit-history entry of a message (only its presence/count matters to
`canEditMessage`). -/
structure EditRecord where
  timestamp : Nat
deriving DecidableEq, Repr

/-- The fields of `MessageAttributesType` that this excerpt reads: reply
bookkeeping (`id`, `storyId`), the mark-read effect (`source`, `sourceUuid`,
`sent_at`, `conversationId`) and the edit-eligibility rule (`body`,
`deletedForEveryone`, `editHistory`, `sendStateByConversationId`). -/
structure MessageAttributes where
  id : String
  conversationId : String
  body : Option String
  deletedForEveryone : Bool
  editHistory : Option (List EditRecord)
  sendStateByConversationId : Option (List (String × SendState))
  sent_at : Nat
  source : Option String
  sourceUuid : Option String
  storyId : Option String
  type : String
deriving DecidableEq, Repr

/-- The `replyState` sub-state of the store. -/
structure ReplyState where
  messageId : String
  replies : List MessageAttributes
deriving DecidableEq, Repr

/-- `StoriesStateType`. -/
structure StoriesState where
  isShowingStoriesView : Bool
  replyState : Option ReplyState
  stories : List StoryData
deriving DecidableEq, Repr

/-- The union of action payloads the reducer handles (`StoriesActionType`
plus the externally-defined `MESSAGE_CHANGED` / `MESSAGE_DELETED` actions and
the `NOOP` marker). -/
inductive StoriesAction where
  | toggleView
  | messageDeleted (id : String) (conversationId : String)
  | storyChanged (payload : StoryData)
  | markStoryRead (payload : String)
  | loadStoryReplies (messageId : String) (replies : List MessageAttributes)
  | messageChanged (id : String) (conversationId : String)
      (data : MessageAttributes)
  | replyToStory (payload : MessageAttributes)
  | resolveAttachmentUrl (messageId : String) (attachmentUrl : String)
  | doeStory (payload : String)
  | noop
deriving DecidableEq, Repr

/-- `Array.prototype.findIndex`, returning `none` where JS returns `-1`. -/
def jsFindIndex (p : α → Bool) : List α → Option Nat
  | [] => none
  | x :: xs => if p x then some 0 else (jsFindIndex p xs).map (· + 1)

/-- Modelled from the spec: `replaceIndex` of `ts/util/replaceIndex` (not in
the provided sources) replaces the element at the given index, leaving the
list unchanged when the index is out of range. -/
def replaceIndex (l : List α) (i : Nat) (x : α) : List α :=
  l.set i x

/-- lodash `isEqual` on the optional `sendStateByConversationId` objects:
deep, key-order-insensitive equality of the two finite maps; `undefined` is
equal only to `undefined`. -/
def sendStateMapEq (a b : Option (List (String × SendState))) : Bool :=
  match a, b with
  | none, none => true
  | some x, some y =>
      x.all (fun p => decide (y.lookup p.1 = some p.2)) &&
      y.all (fun p => decide (x.lookup p.1 = some p.2))
  | _, _ => false

/-- `reactions?.length` with JS optional chaining: `none` plays the role of
`undefined`. -/
def reactionsLength (r : Option (List Reaction)) : Option Nat :=
  r.map List.length

/-- The change-worthiness test of the `STORY_CHANGED` branch of the reducer:
the disjunction of the six replacement conditions computed at
`ts/state/ducks/stories.ts` lines 479-499. -/
def storyChangeShouldReplace (prevStory newStory : StoryData) : Bool :=
  let isDownloadingAttachment := isDownloading newStory.attachment
  let hasAttachmentDownloaded :=
    !isDownloaded prevStory.attachment && isDownloaded newStory.attachment
  let readStatusChanged :=
    decide (prevStory.readStatus ≠ newStory.readStatus)
  let reactionsChanged :=
    decide (reactionsLength prevStory.reactions ≠
      reactionsLength newStory.reactions)
  let hasBeenDeleted :=
    !prevStory.deletedForEveryone && newStory.deletedForEveryone
  let hasSendStateChanged :=
    !sendStateMapEq prevStory.sendStateByConversationId
      newStory.sendStateByConversationId
  isDownloadingAttachment || hasAttachmentDownloaded || hasBeenDeleted ||
    hasSendStateChanged || readStatusChanged || reactionsChanged

/-- The comparator `(a, b) => a.timestamp > b.timestamp ? 1 : -1` orders the
stories by ascending timestamp. -/
def storyLe (a b : StoryData) : Prop :=
  a.timestamp ≤ b.timestamp

instance : DecidableRel storyLe :=
  fun a b => inferInstanceAs (Decidable (a.timestamp ≤ b.timestamp))

instance : IsTotal StoryData storyLe :=
  ⟨fun a b => Nat.le_total a.timestamp b.timestamp⟩

instance : IsTrans StoryData storyLe :=
  ⟨fun _ _ _ hab hbc => Nat.le_trans hab hbc⟩

/-- The `.sort` call of the `STORY_CHANGED` insertion path, embedded as a
stable sort by the total preorder that the comparator induces. -/
def sortStories (l : List StoryData) : List StoryData :=
  List.insertionSort storyLe l

/-- `getEmptyState` of `ts/state/ducks/stories.ts`. -/
def getEmptyState : StoriesState :=
  { isShowingStoriesView := false
    replyState := none
    stories := [] }

/-- The reducer of `ts/state/ducks/stories.ts` (lines 429-649). The `pick`
of the `STORY_CHANGED` branch selects exactly the fields of `StoryData`, so
it is the identity here. In the `STORY_CHANGED` found-branch the index
returned by `findIndex` is always in range; the unreachable out-of-range
case returns the state unchanged. -/
def reducer (state : StoriesState) (action : StoriesAction) : StoriesState :=
  match action with
  | .toggleView =>
      { state with isShowingStoriesView := !state.isShowingStoriesView }
  | .messageDeleted id _conversationId =>
      let nextStories :=
        state.stories.filter (fun story => !decide (story.messageId = id))
      if nextStories.length = state.stories.length then
        state
      else
        { state with stories := nextStories }
  | .storyChanged payload =>
      let newStory := payload
      match jsFindIndex
          (fun existingStory => decide (existingStory.messageId = newStory.messageId))
          state.stories with
      | some prevStoryIndex =>
          match state.stories[prevStoryIndex]? with
          | none => state
          | some prevStory =>
              if storyChangeShouldReplace prevStory newStory then
                { state with
                    stories := replaceIndex state.stories prevStoryIndex newStory }
              else
                state
      | none =>
          { state with
              stories := sortStories (state.stories ++ [newStory]) }
  | .markStoryRead payload =>
      { state with
          stories := state.stories.map (fun story =>
            if decide (story.messageId = payload) then
              { story with readStatus := some ReadStatus.Viewed }
            else
              story) }
  | .loadStoryReplies messageId replies =>
      { state with replyState := some { messageId := messageId, replies := replies } }
  | .messageChanged id _conversationId data =>
      match state.replyState with
      | none => state
      | some replyState =>
          if decide (data.storyId = some replyState.messageId) then
            match jsFindIndex (fun reply => decide (reply.id = id))
                replyState.replies with
            | none =>
                { state with
                    replyState := some
                      { messageId := replyState.messageId
                        replies := replyState.replies ++ [data] } }
            | some messageIndex =>
                { state with
                    replyState := some
                      { messageId := replyState.messageId
                        replies := replaceIndex replyState.replies messageIndex data } }
          else
            state
  | .replyToStory payload =>
      match state.replyState with
      | none => state
      | some replyState =>
          { state with
              replyState := some
                { messageId := replyState.messageId
                  replies := replyState.replies ++ [payload] } }
  | .resolveAttachmentUrl messageId attachmentUrl =>
      match jsFindIndex
          (fun existingStory => decide (existingStory.messageId = messageId))
          state.stories with
      | none => state
      | some storyIndex =>
          match state.stories[storyIndex]? with
          | none => state
          | some story =>
              match story.attachment with
              | none => state
              | some att =>
                  { state with
                      stories := replaceIndex state.stories storyIndex
                        { story with
                            attachment := some { att with url := some attachmentUrl } } }
  | .doeStory payload =>
      match jsFindIndex
          (fun existingStory => decide (existingStory.messageId = payload))
          state.stories with
      | none => state
      | some prevStoryIndex =>
          match state.stories[prevStoryIndex]? with
          | none => state
          | some prevStory =>
              { state with
                  stories := replaceIndex state.stories prevStoryIndex
                    { prevStory with deletedForEveryone := true } }
  | .noop => state

/-! ### Effects -/

/-- Modelled from the spec: `DAY` of `ts/util/durations` (not in the provided
sources), one day in milliseconds. -/
def DAY : Nat := 24 * 60 * 60 * 1000

/-- A recipient as seen through a `StoryViewType` send-state entry. -/
structure Recipient where
  id : String
deriving DecidableEq, Repr

/-- One entry of `StoryViewType.sendState`. -/
structure SendStateEntry where
  recipient : Recipient
deriving DecidableEq, Repr

/-- The slice of `StoryViewType` that `deleteStoryForEveryone` reads. -/
structure StoryView where
  messageId : String
  timestamp : Nat
  sendState : Option (List SendStateEntry)
deriving DecidableEq, Repr

/-- One call to `sendDeleteForEveryoneMessage` recorded by the
delete-for-everyone effect: the target conversation and the options object. -/
structure DeleteForEveryoneCall where
  conversationId : String
  deleteForEveryoneDuration : Nat
  id : String
  timestamp : Nat
deriving DecidableEq, Repr

/-- The observable outcome of `deleteStoryForEveryone`: the retraction
sends that were issued and the action dispatched (if any). -/
structure DeleteForEveryoneResult where
  sends : List DeleteForEveryoneCall
  dispatched : Option StoriesAction
deriving DecidableEq, Repr

/-- `new Set(xs)` iterated in insertion order: the input list with later
duplicates dropped. -/
def dedupKeepFirst (l : List String) : List String :=
  l.foldl (fun acc x => if acc.contains x then acc else acc ++ [x]) []

/-- The recipient-set computation of `deleteStoryForEveryone`
(`ts/state/ducks/stories.ts` lines 154-173): starts from the recipients of
the story's own send state, then deletes every conversation id that appears
in the send state of any story in the store with the same timestamp. -/
def doeRecipients (storeStories : List StoryData) (story : StoryView)
    (sendState : List SendStateEntry) : List String :=
  let conversationIds := dedupKeepFirst (sendState.map (fun e => e.recipient.id))
  let sameTimestamp :=
    storeStories.filter (fun item => decide (item.timestamp = story.timestamp))
  let deletedKeys := sameTimestamp.foldl (fun acc item =>
    match item.sendStateByConversationId with
    | none => acc
    | some m => acc ++ m.map Prod.fst) []
  conversationIds.filter (fun cid => !deletedKeys.contains cid)

/-- `deleteStoryForEveryone` of `ts/state/ducks/stories.ts` (lines 146-194).
`conversationExists` stands for `window.ConversationController.get`
returning a conversation; a retraction is sent (with a one-day
delete-for-everyone duration) for each surviving recipient whose
conversation resolves, then `DOE_STORY` is dispatched. With no send state
the effect returns without dispatching. -/
def deleteStoryForEveryoneEffect (conversationExists : String → Bool)
    (storeStories : List StoryData) (story : StoryView) :
    DeleteForEveryoneResult :=
  match story.sendState with
  | none => { sends := [], dispatched := none }
  | some sendState =>
      let remaining := doeRecipients storeStories story sendState
      let sends := (remaining.filter conversationExists).map (fun cid =>
        { conversationId := cid
          deleteForEveryoneDuration := DAY
          id := story.messageId
          timestamp := story.timestamp })
      { sends := sends
        dispatched := some (StoriesAction.doeStory story.messageId) }

/-- The collaborators that `markStoryRead` consults:
`getMessageById` (the message store lookup, which may fail) and
`window.ConversationController.areWePrimaryDevice`. `now` stands for
`Date.now()`. -/
structure MarkReadEnv where
  getMessageById : String → Option MessageAttributes
  areWePrimaryDevice : Bool
  now : Nat

/-- The observable outcome of `markStoryRead`: which collaborator calls were
made and which action was dispatched (if any). -/
structure MarkReadResult where
  markedViewed : Bool
  viewSyncJobEnqueued : Bool
  viewedReceiptJobEnqueued : Bool
  storyReadPersisted : Bool
  dispatched : Option StoriesAction
deriving DecidableEq, Repr

/-- The outcome of every early-return path of `markStoryRead`: nothing done,
nothing dispatched. -/
def markReadNoop : MarkReadResult :=
  { markedViewed := false
    viewSyncJobEnqueued := false
    viewedReceiptJobEnqueued := false
    storyReadPersisted := false
    dispatched := none }

/-- `markStoryRead` of `ts/state/ducks/stories.ts` (lines 217-274): finds the
story, returns silently unless its attachment is downloaded and it is
unread, looks the message up (returning silently when absent), records the
viewed mark, enqueues the view-sync job only off the primary device,
enqueues the viewed receipt, persists the story read, and dispatches
`MARK_STORY_READ`. -/
def markStoryReadEffect (env : MarkReadEnv) (storeStories : List StoryData)
    (messageId : String) : MarkReadResult :=
  match storeStories.find? (fun story => decide (story.messageId = messageId)) with
  | none => markReadNoop
  | some matchingStory =>
      if !isDownloaded matchingStory.attachment then
        markReadNoop
      else if !decide (matchingStory.readStatus = some ReadStatus.Unread) then
        markReadNoop
      else
        match env.getMessageById messageId with
        | none => markReadNoop
        | some _message =>
            { markedViewed := true
              viewSyncJobEnqueued := !env.areWePrimaryDevice
              viewedReceiptJobEnqueued := true
              storyReadPersisted := true
              dispatched := some (StoriesAction.markStoryRead messageId) }

/-- The observable outcome of `reactToStory`: whether the failure was logged
and toasted, and the actions dispatched, in order. -/
structure ReactResult where
  errorLogged : Bool
  toastShown : Bool
  dispatched : List StoriesAction
deriving DecidableEq, Repr

/-- `reactToStory` of `ts/state/ducks/stories.ts` (lines 345-366): the
reaction-send enqueue (whose outcome is the `enqueueOutcome` argument) is
wrapped in try/catch — a failure is logged and surfaced as a toast — and a
`NOOP` action is dispatched afterwards on both paths. -/
def reactToStoryEffect (enqueueOutcome : Except String Unit) : ReactResult :=
  let caught : ReactResult :=
    match enqueueOutcome with
    | .ok _ => { errorLogged := false, toastShown := false, dispatched := [] }
    | .error _ => { errorLogged := true, toastShown := true, dispatched := [] }
  { caught with dispatched := caught.dispatched ++ [StoriesAction.noop] }

/-! ### canEditMessage -/

/-- The collaborators of `ts/util/canEditMessage.ts` that are defined
outside the provided sources: the `canEditMessages` feature flag,
`isOutgoing`, `isMoreRecentThan`, `someSendStatus _ isSent`, and
`window.ConversationController.getOurConversationId()`. -/
structure EditEnv where
  canEditMessages : Bool
  isOutgoing : MessageAttributes → Bool
  isMoreRecentThan : Nat → Nat → Bool
  someSendStatusIsSent : Option (List (String × SendState)) → Bool
  ourConversationId : Option String

/-- `MAX_EDIT_COUNT` of `ts/util/canEditMessage.ts`. -/
def MAX_EDIT_COUNT : Nat := 10

/-- JS `Boolean(...)` on an optional string: `undefined` and the empty
string are falsy. -/
def truthyString (s : Option String) : Bool :=
  match s with
  | none => false
  | some str => !str.isEmpty

/-- `canEditMessage` of `ts/util/canEditMessage.ts` (lines 13-37). -/
def canEditMessage (env : EditEnv) (message : MessageAttributes) : Bool :=
  let result :=
    env.canEditMessages &&
    !message.deletedForEveryone &&
    env.isOutgoing message &&
    env.isMoreRecentThan message.sent_at DAY &&
    decide (((message.editHistory.map List.length).getD 0) ≤ MAX_EDIT_COUNT) &&
    env.someSendStatusIsSent message.sendStateByConversationId &&
    truthyString message.body
  if result then
    true
  else if decide (env.ourConversationId = some message.conversationId) then
    env.canEditMessages && !message.deletedForEveryone &&
      truthyString message.body
  else
    false

/-! ### Concrete instances used as counterexamples and witnesses -/

/-- A fully downloaded attachment. -/
def sampleAttachment : Attachment :=
  { downloadState := DownloadState.downloaded
    url := some "file://old"
    path := some "a.jpg" }

/-- An attachment whose download is in flight. -/
def downloadingAttachment : Attachment :=
  { downloadState := DownloadState.downloading
    url := none
    path := none }

/-- A baseline story view-model for concrete instances. -/
def baseStory : StoryData :=
  { attachment := none
    canReplyToStory := some true
    conversationId := "conv-1"
    deletedForEveryone := false
    messageId := "story-1"
    reactions := none
    readStatus := some ReadStatus.Unread
    sendStateByConversationId := none
    source := some "src-1"
    sourceUuid := some "uuid-1"
    storyDistributionListId := none
    timestamp := 10
    type := "story" }

/-- Claim C1 counterexample, stored story: its attachment is downloading. -/
def c1Prev : StoryData :=
  { baseStory with attachment := some downloadingAttachment }

/-- Claim C1 counterexample, incoming update: identical to the stored story
in every relevant field (same attachment, hence same download state), but
differing in the irrelevant `canReplyToStory` field. -/
def c1New : StoryData :=
  { c1Prev with canReplyToStory := some false }

/-- Claim C1 counterexample store. -/
def c1State : StoriesState :=
  { isShowingStoriesView := false
    replyState := none
    stories := [c1Prev] }

/-- Claim C2 failing input: the store entry of the story being deleted
itself, timestamp 100, sent to X and Y. -/
def c2StoreA : StoryData :=
  { baseStory with
      messageId := "storyA"
      timestamp := 100
      storyDistributionListId := some "list-1"
      sendStateByConversationId :=
        some [("X", { status := 1, updatedAt := none }),
              ("Y", { status := 1, updatedAt := none })] }

/-- Claim C2 failing input: a second story with the same timestamp sent to Y
under a different distribution list. -/
def c2StoreB : StoryData :=
  { baseStory with
      messageId := "storyB"
      timestamp := 100
      storyDistributionListId := some "list-2"
      sendStateByConversationId :=
        some [("Y", { status := 1, updatedAt := none })] }

/-- Claim C2 failing input: the story view being deleted (timestamp 100,
recipients X and Y). -/
def c2Story : StoryView :=
  { messageId := "storyA"
    timestamp := 100
    sendState := some [{ recipient := { id := "X" } },
                       { recipient := { id := "Y" } }] }

/-- A message record backing `"story-5"` in the message store. -/
def sampleMessage : MessageAttributes :=
  { id := "story-5"
    conversationId := "conv-1"
    body := some "hello"
    deletedForEveryone := false
    editHistory := none
    sendStateByConversationId := none
    sent_at := 10
    source := some "src-1"
    sourceUuid := some "uuid-1"
    storyId := none
    type := "story" }

/-- Claim C5: a story whose attachment is downloaded and which is unread. -/
def c5Story : StoryData :=
  { baseStory with
      messageId := "story-5"
      attachment := some sampleAttachment }

/-- Claim C5 counterexample collaborators: the message-store lookup finds
nothing. -/
def c5Env : MarkReadEnv :=
  { getMessageById := fun _ => none
    areWePrimaryDevice := false
    now := 123 }

/-- Claim C5 witness collaborators: the message-store lookup succeeds. -/
def c5EnvOk : MarkReadEnv :=
  { getMessageById := fun _ => some sampleMessage
    areWePrimaryDevice := false
    now := 123 }

/-- A reply to `"story-1"` already present in the active reply thread. -/
def sampleReply : MessageAttributes :=
  { id := "reply-1"
    conversationId := "conv-1"
    body := some "nice"
    deletedForEveryone := false
    editHistory := none
    sendStateByConversationId := none
    sent_at := 11
    source := some "src-2"
    sourceUuid := some "uuid-2"
    storyId := some "story-1"
    type := "incoming" }

/-- An incoming reply to `"story-1"` that is not yet in the thread. -/
def c6NewReply : MessageAttributes :=
  { sampleReply with id := "reply-2" }

/-- Claim C6 witness store: a reply thread for `"story-1"` is active. -/
def c6State : StoriesState :=
  { isShowingStoriesView := false
    replyState := some { messageId := "story-1", replies := [sampleReply] }
    stories := [] }

/-- Claim C7 witness: a story that carries an attachment. -/
def c7Story : StoryData :=
  { baseStory with attachment := some sampleAttachment }

/-- Claim C7 witness store. -/
def c7State : StoriesState :=
  { isShowingStoriesView := false
    replyState := none
    stories := [c7Story] }

/-- Claim C8 witness store. -/
def c8State : StoriesState :=
  { isShowingStoriesView := false
    replyState := none
    stories := [baseStory] }

/-- Claim C3 witness: a story whose messageId is absent from `c8State`. -/
def c3New : StoryData :=
  { baseStory with messageId := "story-9", timestamp := 5 }

/-- Claim C10 witness collaborators: every external predicate permissive. -/
def c10Env : EditEnv :=
  { canEditMessages := true
    isOutgoing := fun _ => true
    isMoreRecentThan := fun _ _ => true
    someSendStatusIsSent := fun _ => true
    ourConversationId := some "conv-1" }

/-- Claim C10 witness: a message deleted for everyone. -/
def c10Message : MessageAttributes :=
  { sampleMessage with deletedForEveryone := true }

/-! ### Helper lemmas -/

theorem jsFindIndex_eq_none_iff (p : α → Bool) (l : List α) :
    jsFindIndex p l = none ↔ ∀ x ∈ l, p x = false := by
  induction l with
  | nil => simp [jsFindIndex]
  | cons x xs ih =>
      by_cases hx : p x = true
      · simp [jsFindIndex, hx]
      · rw [Bool.not_eq_true] at hx
        simp [jsFindIndex, hx, ih]

theorem jsFindIndex_some (p : α → Bool) {l : List α} {i : Nat}
    (h : jsFindIndex p l = some i) :
    ∃ x, l[i]? = some x ∧ p x = true := by
  induction l generalizing i with
  | nil => simp [jsFindIndex] at h
  | cons x xs ih =>
      by_cases hx : p x = true
      · simp [jsFindIndex, hx] at h
        exact ⟨x, by simp [← h], hx⟩
      · rw [Bool.not_eq_true] at hx
        simp [jsFindIndex, hx] at h
        obtain ⟨j, hj, hij⟩ := h
        obtain ⟨y, hy, hpy⟩ := ih hj
        exact ⟨y, by simpa [← hij] using hy, hpy⟩

theorem set_of_getElem?_eq {l : List α} :
    ∀ {i : Nat} {x : α}, l[i]? = some x → l.set i x = l := by
  induction l with
  | nil => intro i x h; simp at h
  | cons y ys ih =>
      intro i x h
      cases i with
      | zero =>
          rw [List.getElem?_cons_zero] at h
          injection h with h
          rw [List.set_cons_zero, h]
      | succ j =>
          rw [List.getElem?_cons_succ] at h
          rw [List.set_cons_succ, ih h]

theorem map_set_eq_of_getElem? {l : List α} {i : Nat} {prev : α} (f : α → β)
    (x : α) (hget : l[i]? = some prev) (hf : f x = f prev) :
    (l.set i x).map f = l.map f := by
  rw [List.map_set, hf]
  apply set_of_getElem?_eq
  rw [List.getElem?_map, hget]
  rfl

theorem sortStories_perm (l : List StoryData) : (sortStories l).Perm l :=
  List.perm_insertionSort storyLe l

/-! ### Claim C1 -/

/-- Claim C1, counterexample: a `STORY_CHANGED` update whose relevant field
set is unchanged — the incoming attachment is the very same (downloading)
attachment, the deletion flag, send-state mapping, read status and reaction
count are all unchanged — is nevertheless not a no-op: because the new
attachment is in the downloading state the reducer replaces the stored
view-model (which here differs in the irrelevant `canReplyToStory` field),
so the store is not returned by identity. -/
theorem storyChanged_same_relevant_fields_not_identity :
    c1New.messageId = c1Prev.messageId ∧
    c1Prev.attachment = c1New.attachment ∧
    c1Prev.deletedForEveryone = c1New.deletedForEveryone ∧
    sendStateMapEq c1Prev.sendStateByConversationId
      c1New.sendStateByConversationId = true ∧
    c1Prev.readStatus = c1New.readStatus ∧
    reactionsLength c1Prev.reactions = reactionsLength c1New.reactions ∧
    c1State.stories = [c1Prev] ∧
    reducer c1State (StoriesAction.storyChanged c1New) ≠ c1State := by
  decide

/-- Claim C1 (amended): when the payload's `messageId` matches the stored
view-model at index `i`, the reducer replaces that view-model exactly when
the new attachment is currently in the downloading state (no transition
required), or the attachment went from not-downloaded to downloaded, or the
deletion flag went from false to true, or the send-state mapping is deeply
unequal, or the read status changed, or the reaction-list length changed;
otherwise it returns the store unchanged (the same reference in the
source). -/
theorem storyChanged_replacement_characterization (s : StoriesState)
    (payload : StoryData) (i : Nat) (prevStory : StoryData)
    (hfind : jsFindIndex
      (fun ex => decide (ex.messageId = payload.messageId)) s.stories = some i)
    (hget : s.stories[i]? = some prevStory) :
    reducer s (StoriesAction.storyChanged payload) =
      if isDownloading payload.attachment
          || (!isDownloaded prevStory.attachment && isDownloaded payload.attachment)
          || (!prevStory.deletedForEveryone && payload.deletedForEveryone)
          || !sendStateMapEq prevStory.sendStateByConversationId
                payload.sendStateByConversationId
          || decide (prevStory.readStatus ≠ payload.readStatus)
          || decide (reactionsLength prevStory.reactions ≠
                reactionsLength payload.reactions)
      then { s with stories := replaceIndex s.stories i payload }
      else s := by
  simp only [reducer, hfind, hget, storyChangeShouldReplace]

/-- Claim C1 witness: the amended characterization applied to the concrete
counterexample store. -/
theorem storyChanged_replacement_characterization_witness :
    reducer c1State (StoriesAction.storyChanged c1New) =
      if isDownloading c1New.attachment
          || (!isDownloaded c1Prev.attachment && isDownloaded c1New.attachment)
          || (!c1Prev.deletedForEveryone && c1New.deletedForEveryone)
          || !sendStateMapEq c1Prev.sendStateByConversationId
                c1New.sendStateByConversationId
          || decide (c1Prev.readStatus ≠ c1New.readStatus)
          || decide (reactionsLength c1Prev.reactions ≠
                reactionsLength c1New.reactions)
      then { c1State with stories := replaceIndex c1State.stories 0 c1New }
      else c1State :=
  storyChanged_replacement_characterization c1State c1New 0 c1Prev
    (by decide) (by decide)

/-! ### Claim C2 -/

/-- Claim C2, evaluation at the failing input: story A (timestamp 100,
recipients X and Y) is deleted while the store holds A's own entry (same
timestamp) and a second same-timestamp story sent to Y under a different
distribution list. The same-timestamp exclusion loop has no
distribution-list or message-id restriction, so A's own recipients are also
removed from the set and the effect sends no retraction at all — in
particular X, whom the claim (and the code's own comment about other
distribution lists) says must receive it, does not. -/
theorem deleteStoryForEveryone_self_exclusion :
    c2Story.sendState =
      some [{ recipient := { id := "X" } }, { recipient := { id := "Y" } }] ∧
    (deleteStoryForEveryoneEffect (fun _ => true) [c2StoreA, c2StoreB]
        c2Story).sends = [] := by
  decide

/-! ### Claim C3 -/

/-- Claim C3: a `STORY_CHANGED` delta whose payload's `messageId` is not
present in the stories list yields a stories sequence sorted ascending by
timestamp. -/
theorem storyChanged_new_story_sorted (s : StoriesState) (payload : StoryData)
    (h : ∀ st ∈ s.stories, st.messageId ≠ payload.messageId) :
    List.Sorted storyLe (reducer s (StoriesAction.storyChanged payload)).stories := by
  have hfind : jsFindIndex
      (fun ex => decide (ex.messageId = payload.messageId)) s.stories = none := by
    rw [jsFindIndex_eq_none_iff]
    intro x hx
    simpa using h x hx
  simp only [reducer, hfind, sortStories]
  exact List.sorted_insertionSort storyLe _

/-- Claim C3 witness: upserting a fresh `messageId` into the one-story store
leaves the list sorted. -/
theorem storyChanged_new_story_sorted_witness :
    List.Sorted storyLe
      (reducer c8State (StoriesAction.storyChanged c3New)).stories :=
  storyChanged_new_story_sorted c8State c3New (by decide)

/-! ### Claim C4 -/

/-- Claim C4: every reducer transition preserves the invariant that the
stories list holds at most one view-model per `messageId`: if the input
state's story `messageId`s are pairwise distinct, so are the output
state's. -/
theorem reducer_at_most_one_per_messageId (s : StoriesState) (a : StoriesAction)
    (h : (s.stories.map (fun st => st.messageId)).Nodup) :
    ((reducer s a).stories.map (fun st => st.messageId)).Nodup := by
  cases a with
  | toggleView => exact h
  | messageDeleted id conversationId =>
      simp only [reducer]
      split
      · exact h
      · exact h.sublist ((List.filter_sublist _).map _)
  | storyChanged payload =>
      cases hfind : jsFindIndex
          (fun existingStory => decide (existingStory.messageId = payload.messageId))
          s.stories with
      | some i =>
          cases hget : s.stories[i]? with
          | none =>
              simp only [reducer, hfind, hget]
              exact h
          | some prevStory =>
              simp only [reducer, hfind, hget]
              split
              · show ((replaceIndex s.stories i payload).map
                  (fun st => st.messageId)).Nodup
                obtain ⟨x, hx, hpx⟩ := jsFindIndex_some _ hfind
                rw [hget] at hx
                injection hx with hx
                subst hx
                rw [decide_eq_true_eq] at hpx
                simp only [replaceIndex]
                rw [map_set_eq_of_getElem? (fun st => st.messageId) payload hget hpx.symm]
                exact h
              · exact h
      | none =>
        simp only [reducer, hfind]
        rw [jsFindIndex_eq_none_iff] at hfind
        have hnotin : payload.messageId ∉ s.stories.map (fun st => st.messageId) := by
          intro hmem
          obtain ⟨st, hst, hsteq⟩ := List.mem_map.mp hmem
          have hne := hfind st hst
          rw [decide_eq_false_iff_not] at hne
          exact hne hsteq
        have hperm :
            ((sortStories (s.stories ++ [payload])).map (fun st => st.messageId)).Perm
              ((s.stories ++ [payload]).map (fun st => st.messageId)) :=
          (sortStories_perm _).map _
        show ((sortStories (s.stories ++ [payload])).map
          (fun st => st.messageId)).Nodup
        apply hperm.symm.nodup
        rw [List.map_append]
        apply (List.perm_append_singleton _ _).symm.nodup
        exact List.nodup_cons.mpr ⟨hnotin, h⟩
  | markStoryRead payload =>
      simp only [reducer]
      rw [List.map_map]
      have hcongr : s.stories.map
          ((fun st => st.messageId) ∘ (fun story =>
            if decide (story.messageId = payload) then
              { story with readStatus := some ReadStatus.Viewed }
            else story))
          = s.stories.map (fun st => st.messageId) := by
        apply List.map_congr_left
        intro st _
        by_cases hc : decide (st.messageId = payload) = true <;>
          simp [Function.comp, hc]
      rw [hcongr]
      exact h
  | loadStoryReplies messageId replies => exact h
  | messageChanged id conversationId data =>
      simp only [reducer]
      split
      · exact h
      · split
        · split
          · exact h
          · exact h
        · exact h
  | replyToStory payload =>
      simp only [reducer]
      split
      · exact h
      · exact h
  | resolveAttachmentUrl messageId attachmentUrl =>
      cases hfind : jsFindIndex
          (fun existingStory => decide (existingStory.messageId = messageId))
          s.stories with
      | none =>
          simp only [reducer, hfind]
          exact h
      | some i =>
          cases hget : s.stories[i]? with
          | none =>
              simp only [reducer, hfind, hget]
              exact h
          | some st =>
              cases hatt : st.attachment with
              | none =>
                  simp only [reducer, hfind, hget, hatt]
                  exact h
              | some att =>
                  simp only [reducer, hfind, hget, hatt]
                  show ((replaceIndex s.stories i
                      { st with attachment := some { att with url := some attachmentUrl } }).map
                    (fun st2 => st2.messageId)).Nodup
                  simp only [replaceIndex]
                  rw [map_set_eq_of_getElem? (fun st2 => st2.messageId)
                    { st with attachment := some { att with url := some attachmentUrl } }
                    hget rfl]
                  exact h
  | doeStory payload =>
      cases hfind : jsFindIndex
          (fun existingStory => decide (existingStory.messageId = payload))
          s.stories with
      | none =>
          simp only [reducer, hfind]
          exact h
      | some i =>
          cases hget : s.stories[i]? with
          | none =>
              simp only [reducer, hfind, hget]
              exact h
          | some prevStory =>
              simp only [reducer, hfind, hget]
              show ((replaceIndex s.stories i
                  { prevStory with deletedForEveryone := true }).map
                (fun st2 => st2.messageId)).Nodup
              simp only [replaceIndex]
              rw [map_set_eq_of_getElem? (fun st2 => st2.messageId)
                { prevStory with deletedForEveryone := true } hget rfl]
              exact h
  | noop => exact h

/-- Claim C4 witness: the invariant is preserved on the concrete one-story
store under a `STORY_CHANGED` update. -/
theorem reducer_at_most_one_per_messageId_witness :
    ((reducer c1State (StoriesAction.storyChanged c1New)).stories.map
      (fun st => st.messageId)).Nodup :=
  reducer_at_most_one_per_messageId c1State (StoriesAction.storyChanged c1New)
    (by decide)

/-! ### Claim C5 -/

/-- Claim C5, counterexample: the three stated preconditions are not
sufficient — here the matching story exists, its attachment is downloaded
and it is unread, yet the effect dispatches nothing because the
message-store lookup (`getMessageById`) finds no message. -/
theorem markStoryRead_lookup_failure_no_dispatch :
    List.find? (fun story => decide (story.messageId = "story-5")) [c5Story]
        = some c5Story ∧
    isDownloaded c5Story.attachment = true ∧
    c5Story.readStatus = some ReadStatus.Unread ∧
    (markStoryReadEffect c5Env [c5Story] "story-5").dispatched = none := by
  refine ⟨rfl, rfl, rfl, rfl⟩

/-- Claim C5 (amended): the mark-read effect dispatches `MARK_STORY_READ`
exactly when a matching view-model exists, its attachment is fully
downloaded, its read status is unread, and in addition the message-store
lookup finds the underlying message; on every other path it is a silent
no-op (no dispatch and no collaborator call). In particular a story that is
unread but not downloaded never triggers a dispatch. -/
theorem markStoryRead_dispatch_characterization (env : MarkReadEnv)
    (storeStories : List StoryData) (messageId : String) :
    ((markStoryReadEffect env storeStories messageId).dispatched
        = some (StoriesAction.markStoryRead messageId)
      ↔ ∃ st,
          storeStories.find? (fun story => decide (story.messageId = messageId))
            = some st
          ∧ isDownloaded st.attachment = true
          ∧ st.readStatus = some ReadStatus.Unread
          ∧ (env.getMessageById messageId).isSome = true) ∧
    ((markStoryReadEffect env storeStories messageId).dispatched = none →
      markStoryReadEffect env storeStories messageId = markReadNoop) := by
  cases hf : storeStories.find? (fun story => decide (story.messageId = messageId)) with
  | none => simp [markStoryReadEffect, hf, markReadNoop]
  | some st =>
      by_cases hd : isDownloaded st.attachment = true
      · by_cases hr : st.readStatus = some ReadStatus.Unread
        · cases hm : env.getMessageById messageId with
          | none => simp [markStoryReadEffect, hf, hd, hr, hm, markReadNoop]
          | some m => simp [markStoryReadEffect, hf, hd, hr, hm, markReadNoop]
        · simp [markStoryReadEffect, hf, hd, hr, markReadNoop]
      · rw [Bool.not_eq_true] at hd
        simp [markStoryReadEffect, hf, hd, markReadNoop]

/-- Claim C5 witness: with the message store answering the lookup, the
downloaded unread story is marked read and the action is dispatched. -/
theorem markStoryRead_dispatch_characterization_witness :
    (markStoryReadEffect c5EnvOk [c5Story] "story-5").dispatched
      = some (StoriesAction.markStoryRead "story-5") :=
  (markStoryRead_dispatch_characterization c5EnvOk [c5Story] "story-5").1.mpr
    ⟨c5Story, rfl, rfl, rfl, rfl⟩

/-! ### Claim C6 -/

/-- Claim C6: a `MESSAGE_CHANGED` delta touches the state only when a reply
thread is active and its story id equals the incoming reply's parent story
id; then a reply whose id is absent is appended to the end of the thread
and a present one is replaced in place at its index, while with no active
thread or a mismatched parent story id the state is returned unchanged. -/
theorem messageChanged_reply_thread (s : StoriesState) (id conversationId : String)
    (data : MessageAttributes) :
    (s.replyState = none →
      reducer s (StoriesAction.messageChanged id conversationId data) = s) ∧
    (∀ rs, s.replyState = some rs →
      (data.storyId ≠ some rs.messageId →
        reducer s (StoriesAction.messageChanged id conversationId data) = s) ∧
      (data.storyId = some rs.messageId →
        (jsFindIndex (fun reply => decide (reply.id = id)) rs.replies = none →
          reducer s (StoriesAction.messageChanged id conversationId data) =
            { s with replyState :=
                          some { messageId := rs.messageId,
                                 replies := rs.replies ++ [data] } }) ∧
        (∀ j, jsFindIndex (fun reply => decide (reply.id = id)) rs.replies = some j →
          reducer s (StoriesAction.messageChanged id conversationId data) =
            { s with replyState :=
                          some { messageId := rs.messageId,
                                 replies := replaceIndex rs.replies j data } }))) := by
  refine ⟨fun h => by simp [reducer, h], fun rs hrs => ⟨fun hne => ?_, fun heq => ⟨fun hnone => ?_, fun j hj => ?_⟩⟩⟩
  · simp [reducer, hrs, hne]
  · simp [reducer, hrs, heq, hnone]
  · simp [reducer, hrs, heq, hj]

/-- Claim C6 witness: an incoming reply with a fresh id and a matching
parent story id is appended to the active thread. -/
theorem messageChanged_reply_thread_witness :
    reducer c6State (StoriesAction.messageChanged "reply-2" "conv-1" c6NewReply) =
      { c6State with replyState :=
                         some { messageId := "story-1",
                                replies := [sampleReply] ++ [c6NewReply] } } := by
  have h := messageChanged_reply_thread c6State "reply-2" "conv-1" c6NewReply
  exact ((h.2 { messageId := "story-1", replies := [sampleReply] } rfl).2
    (by decide)).1 (by decide)

/-! ### Claim C7 -/

/-- Claim C7: `RESOLVE_ATTACHMENT_URL` is a no-op when no view-model with
the id exists or the match has no attachment; otherwise the reducer
replaces only the matched view-model, and only its attachment's `url`
field, leaving every other attachment field, every other view-model field
and every other story untouched. -/
theorem resolveAttachmentUrl_updates_only_url (s : StoriesState)
    (messageId attachmentUrl : String) :
    (jsFindIndex (fun ex => decide (ex.messageId = messageId)) s.stories = none →
      reducer s (StoriesAction.resolveAttachmentUrl messageId attachmentUrl) = s) ∧
    (∀ i st,
      jsFindIndex (fun ex => decide (ex.messageId = messageId)) s.stories = some i →
      s.stories[i]? = some st →
      (st.attachment = none →
        reducer s (StoriesAction.resolveAttachmentUrl messageId attachmentUrl) = s) ∧
      (∀ att, st.attachment = some att →
        reducer s (StoriesAction.resolveAttachmentUrl messageId attachmentUrl) =
          { s with stories :=
                       replaceIndex s.stories i
                         { st with attachment :=
                                     some { att with url := some attachmentUrl } } })) := by
  refine ⟨fun hnone => by simp [reducer, hnone],
    fun i st hfind hget => ⟨fun hatt => ?_, fun att hatt => ?_⟩⟩
  · simp [reducer, hfind, hget, hatt]
  · simp [reducer, hfind, hget, hatt]

/-- Claim C7 witness: resolving the attachment URL of the stored story
rewrites exactly the `url` field of its attachment. -/
theorem resolveAttachmentUrl_updates_only_url_witness :
    reducer c7State (StoriesAction.resolveAttachmentUrl "story-1" "file://new") =
      { c7State with stories :=
                         replaceIndex c7State.stories 0
                           { c7Story with attachment := some { sampleAttachment with url := some "file://new" } } } :=
  ((resolveAttachmentUrl_updates_only_url c7State "story-1" "file://new").2
    0 c7Story (by decide) rfl).2 sampleAttachment rfl

/-! ### Claim C8 -/

theorem filter_ne_length_of_mem {l : List StoryData} {id : String}
    (hnodup : (l.map (fun st => st.messageId)).Nodup)
    (hmem : ∃ st ∈ l, st.messageId = id) :
    (l.filter (fun story => !decide (story.messageId = id))).length + 1
      = l.length := by
  induction l with
  | nil => simp at hmem
  | cons x xs ih =>
      rw [List.map_cons, List.nodup_cons] at hnodup
      obtain ⟨hx, hxs⟩ := hnodup
      by_cases hxid : x.messageId = id
      · have hnone : ∀ st ∈ xs, ¬(st.messageId = id) := by
          intro st hst heq
          exact hx (List.mem_map.mpr ⟨st, hst, by rw [heq, hxid]⟩)
        have hrest : xs.filter (fun story => !decide (story.messageId = id)) = xs :=
          List.filter_eq_self.mpr (fun a ha => by simp [hnone a ha])
        simp [List.filter_cons, hxid, hrest]
      · obtain ⟨st, hst, hsteq⟩ := hmem
        have hst' : st ∈ xs := by
          rcases List.mem_cons.mp hst with h | h
          · exact absurd (h ▸ hsteq) hxid
          · exact h
        have := ih hxs ⟨st, hst', hsteq⟩
        simp only [List.filter_cons, hxid, decide_False, Bool.not_false,
          if_pos, List.length_cons]
        omega

/-- Claim C8: a `MESSAGE_DELETED` delta for an id not present in the stories
list returns the state unchanged (the same reference in the source), while
for a present id it shrinks the stories list by exactly one element and the
remaining view-models keep their relative order (the result is a sublist of
the original). The store invariant of at most one view-model per
`messageId` is assumed. -/
theorem messageDeleted_removal (s : StoriesState) (id conversationId : String)
    (hnodup : (s.stories.map (fun st => st.messageId)).Nodup) :
    ((∀ st ∈ s.stories, st.messageId ≠ id) →
      reducer s (StoriesAction.messageDeleted id conversationId) = s) ∧
    ((∃ st ∈ s.stories, st.messageId = id) →
      (reducer s (StoriesAction.messageDeleted id conversationId)).stories.length + 1
          = s.stories.length ∧
      (reducer s (StoriesAction.messageDeleted id conversationId)).stories.Sublist
        s.stories) := by
  constructor
  · intro h
    have hfeq : s.stories.filter (fun story => !decide (story.messageId = id))
        = s.stories :=
      List.filter_eq_self.mpr (fun a ha => by simp [h a ha])
    simp [reducer, hfeq]
  · intro hmem
    have hlen := filter_ne_length_of_mem hnodup hmem
    have hne : (s.stories.filter
        (fun story => !decide (story.messageId = id))).length ≠ s.stories.length := by
      omega
    simp only [reducer, if_neg hne]
    exact ⟨hlen, List.filter_sublist s.stories⟩

/-- Claim C8 witness: deleting the only story of the one-story store shrinks
it by one. -/
theorem messageDeleted_removal_witness :
    (reducer c8State (StoriesAction.messageDeleted "story-1" "conv-1")).stories.length + 1
        = c8State.stories.length ∧
    (reducer c8State (StoriesAction.messageDeleted "story-1" "conv-1")).stories.Sublist
      c8State.stories :=
  (messageDeleted_removal c8State "story-1" "conv-1" (by decide)).2
    ⟨baseStory, by decide, rfl⟩

/-! ### Claim C9 -/

/-- Claim C9: the react-to-story effect catches the reaction-send failure
inside its own boundary — on failure the error is logged and a toast is
shown — and in both the success and the failure case it dispatches exactly
one no-op marker action. -/
theorem reactToStory_always_noop_dispatch (outcome : Except String Unit) :
    (reactToStoryEffect outcome).dispatched = [StoriesAction.noop] ∧
    (∀ e, outcome = Except.error e →
      (reactToStoryEffect outcome).errorLogged = true ∧
      (reactToStoryEffect outcome).toastShown = true) := by
  cases outcome <;> simp [reactToStoryEffect]

/-- Claim C9 witness: the effect evaluated at a failing enqueue. -/
theorem reactToStory_always_noop_dispatch_witness :
    (reactToStoryEffect (Except.error "boom")).dispatched = [StoriesAction.noop] ∧
    (reactToStoryEffect (Except.error "boom")).errorLogged = true ∧
    (reactToStoryEffect (Except.error "boom")).toastShown = true := by
  have h := reactToStory_always_noop_dispatch (Except.error "boom")
  exact ⟨h.1, (h.2 "boom" rfl).1, (h.2 "boom" rfl).2⟩

/-! ### Claim C10 -/

/-- Claim C10: a message whose `deletedForEveryone` flag is true can never
be edited, whatever its other fields and whatever the external
collaborators answer — both the general branch and the note-to-self branch
of `canEditMessage` require the flag to be false. -/
theorem canEditMessage_false_of_deletedForEveryone (env : EditEnv)
    (message : MessageAttributes) (h : message.deletedForEveryone = true) :
    canEditMessage env message = false := by
  simp [canEditMessage, h]

/-- Claim C10 witness: a deleted-for-everyone message is not editable even
with every collaborator permissive. -/
theorem canEditMessage_false_of_deletedForEveryone_witness :
    canEditMessage c10Env c10Message = false :=
  canEditMessage_false_of_deletedForEveryone c10Env c10Message rfl

end Stories
